import Mathlib

/-
Verification of the Monthly Dataset Loader of the solar-h2-dashboard
repository (src/streamlit_app.py).

The loader (lines 74-112 of streamlit_app.py) reads a CSV into a pandas
DataFrame, strips whitespace from column names, checks the nine required
columns, drops rows whose Day value is not parseable as a number, filters
rows with Day >= 1, sorts by Day, computes the derived columns H2_Duration
and H2_Energ_Total_kWh, applies the zero-production mask, and stores the
records for the detected month.

Embedding choices:
- A parsed CSV cell is a rational number, a missing value (NaN), or
  non-numeric text.  pandas "to_numeric(errors=coerce)" maps text and NaN
  to NaN, numbers to themselves.
- NaN is modelled as "Option.none"; pandas arithmetic on NaN (subtraction,
  addition, clip) propagates NaN, which the Option combinators below mirror.
- Floating point values are modelled as rationals; all the arithmetic the
  loader performs (subtraction, addition, max with 0, comparisons) is exact
  on the data the dashboard handles, so rational arithmetic is faithful.
- The missing-column path of the code (st.warning listing the missing
  columns, then "continue": the month is skipped and no dataset produced)
  is modelled as a typed error carrying exactly that list.
-/

set_option autoImplicit false

namespace SolarH2

/-- A parsed CSV cell: a number, a missing value (NaN), or non-numeric
text (any string pandas cannot coerce to a number). -/
inductive Cell where
  | num (q : ℚ)
  | nan
  | txt (s : String)
  deriving DecidableEq, Repr

/-- pandas numeric view of a cell: "pd.to_numeric(-, errors=coerce)"
yields the number for a numeric cell and NaN (here "none") for a missing
or non-numeric cell. -/
def Cell.toOpt : Cell → Option ℚ
  | .num q => some q
  | .nan => none
  | .txt _ => none

/-- A raw input table as produced by "pd.read_csv": a header row of column
names and data rows aligned positionally with the header. -/
structure RawTable where
  header : List String
  rows : List (List Cell)
  deriving DecidableEq, Repr

/-- The required column list of streamlit_app.py lines 90-94, in source
order. -/
def required_cols : List String :=
  ["Day", "PV_Total_MWh", "PV_to_H2_kWh", "Batt_to_H2_kWh",
   "H2_Start_Hour", "H2_Stop_Hour", "H2_Produced_kg",
   "Final_SOC_pct", "Battery_Cycles_Daily"]

/-- Drop leading whitespace characters from a character list. -/
def dropLeadingWs : List Char → List Char
  | [] => []
  | c :: cs => if c.isWhitespace then dropLeadingWs cs else c :: cs

/-- Trim whitespace from both ends of a string, as pandas
".str.strip()" does to each column name. -/
def strTrim (s : String) : String :=
  String.mk ((dropLeadingWs (dropLeadingWs s.data).reverse).reverse)

/-- Column names after "df.columns = df.columns.str.strip()" (line 77). -/
def stripHeader (t : RawTable) : List String :=
  t.header.map strTrim

/-- The list "missing" of line 95: every required column absent from the
stripped header, in required-column order. -/
def missingOf (t : RawTable) : List String :=
  required_cols.filter (fun c => decide (c ∉ stripHeader t))

/-- Value of column "c" in a data row: the cell at the position of "c"
in the header ("df[c]" for one row).  NaN when the column is absent; the
loader only reads columns it has already checked to be present. -/
def getCell (header : List String) (row : List Cell) (c : String) : Cell :=
  match header, row with
  | [], _ => Cell.nan
  | _, [] => Cell.nan
  | h :: hs, v :: vs => if h = c then v else getCell hs vs c

/-- Exact rational addition, written through "mkRat" so that the kernel
can evaluate it on concrete inputs (proved equal to "+" below). -/
def qAdd (x y : ℚ) : ℚ :=
  mkRat (x.num * y.den + y.num * x.den) (x.den * y.den)

/-- Exact rational subtraction, written through "mkRat" so that the
kernel can evaluate it on concrete inputs (proved equal to "-" below). -/
def qSub (x y : ℚ) : ℚ :=
  mkRat (x.num * y.den - y.num * x.den) (x.den * y.den)

/-- Exact division of a rational by a natural number (the only division
the dashboard performs: mean = sum / row count); kernel evaluable. -/
def qDivNat (x : ℚ) (n : ℕ) : ℚ :=
  mkRat x.num (x.den * n)

/-- NaN-propagating subtraction, as pandas Series subtraction. -/
def optSub : Option ℚ → Option ℚ → Option ℚ
  | some x, some y => some (qSub x y)
  | _, _ => none

/-- NaN-propagating addition, as pandas Series addition. -/
def optAdd : Option ℚ → Option ℚ → Option ℚ
  | some x, some y => some (qAdd x y)
  | _, _ => none

/-- pandas ".clip(lower=0)": a present value below 0 is replaced by 0,
NaN is kept. -/
def clip0 (a : Option ℚ) : Option ℚ :=
  a.map (fun x => if x < 0 then 0 else x)

/-- One normalized output row: the nine required columns plus the two
derived columns of lines 106-110.  "Day" is a plain rational because rows
whose Day is not numeric were dropped before this record is built; the
other columns keep the NaN possibility. -/
structure DailyRecord where
  Day : ℚ
  PV_Total_MWh : Option ℚ
  PV_to_H2_kWh : Option ℚ
  Batt_to_H2_kWh : Option ℚ
  H2_Start_Hour : Option ℚ
  H2_Stop_Hour : Option ℚ
  H2_Produced_kg : Option ℚ
  Final_SOC_pct : Option ℚ
  Battery_Cycles_Daily : Option ℚ
  H2_Duration : Option ℚ
  H2_Energy_Total_kWh : Option ℚ
  deriving DecidableEq, Repr

/-- Build one output record from a (numeric Day, raw row) pair: the
derived-column block of lines 106-110.  Line 106 computes H2_Duration as
(H2_Stop_Hour - H2_Start_Hour).clip(lower=0); lines 107-108 overwrite
H2_Duration, H2_Start_Hour and H2_Stop_Hour with 0 on rows where
H2_Produced_kg is 0 or NaN; line 110 sets H2_Energy_Total_kWh to
PV_to_H2_kWh + Batt_to_H2_kWh. -/
def mkRecord (header : List String) (p : ℚ × List Cell) : DailyRecord :=
  let start := Cell.toOpt (getCell header p.2 "H2_Start_Hour")
  let stop := Cell.toOpt (getCell header p.2 "H2_Stop_Hour")
  let produced := Cell.toOpt (getCell header p.2 "H2_Produced_kg")
  let pv := Cell.toOpt (getCell header p.2 "PV_to_H2_kWh")
  let batt := Cell.toOpt (getCell header p.2 "Batt_to_H2_kWh")
  if produced = some 0 ∨ produced = none then
    { Day := p.1
      PV_Total_MWh := Cell.toOpt (getCell header p.2 "PV_Total_MWh")
      PV_to_H2_kWh := pv
      Batt_to_H2_kWh := batt
      H2_Start_Hour := some 0
      H2_Stop_Hour := some 0
      H2_Produced_kg := produced
      Final_SOC_pct := Cell.toOpt (getCell header p.2 "Final_SOC_pct")
      Battery_Cycles_Daily := Cell.toOpt (getCell header p.2 "Battery_Cycles_Daily")
      H2_Duration := some 0
      H2_Energy_Total_kWh := optAdd pv batt }
  else
    { Day := p.1
      PV_Total_MWh := Cell.toOpt (getCell header p.2 "PV_Total_MWh")
      PV_to_H2_kWh := pv
      Batt_to_H2_kWh := batt
      H2_Start_Hour := start
      H2_Stop_Hour := stop
      H2_Produced_kg := produced
      Final_SOC_pct := Cell.toOpt (getCell header p.2 "Final_SOC_pct")
      Battery_Cycles_Daily := Cell.toOpt (getCell header p.2 "Battery_Cycles_Daily")
      H2_Duration := clip0 (optSub stop start)
      H2_Energy_Total_kWh := optAdd pv batt }

/-- Rows surviving line 101, paired with their coerced Day value of line
102: "df[pd.to_numeric(df[Day], errors=coerce).notna()]" keeps exactly the
rows whose Day coerces to a number. -/
def rowsWithDay (t : RawTable) : List (ℚ × List Cell) :=
  t.rows.filterMap (fun row =>
    (Cell.toOpt (getCell (stripHeader t) row "Day")).map (fun d => (d, row)))

/-- The filter "df[df[Day] >= 1]" of line 103. -/
def keptRows (t : RawTable) : List (ℚ × List Cell) :=
  (rowsWithDay t).filter (fun p => decide ((1 : ℚ) ≤ p.1))

/-- Insert a row into a list of rows already sorted by Day. -/
def insertByDay (p : ℚ × List Cell) : List (ℚ × List Cell) → List (ℚ × List Cell)
  | [] => [p]
  | q :: rest => if p.1 < q.1 then p :: q :: rest else q :: insertByDay p rest

/-- The sort "sort_values(Day)" of line 103, realized as an insertion
sort by the Day key.  (pandas sorts with numpy's default quicksort, whose
order on ties is implementation defined; every property proved below is
independent of the tie order.) -/
def sortByDay : List (ℚ × List Cell) → List (ℚ × List Cell)
  | [] => []
  | p :: rest => insertByDay p (sortByDay rest)

/-- Typed failure of a month's load.  The code reports missing required
columns with "st.warning" listing them and skips the month (lines 96-98):
no dataset for that month is produced, which this error models. -/
inductive LoadError where
  | missingColumns (cols : List String)
  deriving DecidableEq, Repr

/-- The whole per-file load pipeline of lines 77-112, from the parsed raw
table to the list of records stored in all_months_data (or the
missing-column failure). -/
def loadTable (t : RawTable) : Except LoadError (List DailyRecord) :=
  if missingOf t = [] then
    Except.ok ((sortByDay (keptRows t)).map (mkRecord (stripHeader t)))
  else
    Except.error (LoadError.missingColumns (missingOf t))

instance {e a : Type} [DecidableEq e] [DecidableEq a] : DecidableEq (Except e a) := fun x y =>
  match x, y with
  | .ok u, .ok v => decidable_of_iff (u = v) (by simp)
  | .error u, .error v => decidable_of_iff (u = v) (by simp)
  | .ok _, .error _ => isFalse (fun h => Except.noConfusion h)
  | .error _, .ok _ => isFalse (fun h => Except.noConfusion h)

/-- Line 141: "current_data[H2_Produced_kg].sum()".  pandas sums with
skipna=True, so a missing value contributes nothing. -/
def total_h2 (rows : List DailyRecord) : ℚ :=
  rows.foldl (fun acc r => qAdd acc (r.H2_Produced_kg.getD 0)) 0

/-- Number of rows whose H2_Produced_kg is present (not NaN); the count
pandas divides by in ".mean()". -/
def presentH2Count (rows : List DailyRecord) : ℕ :=
  rows.countP (fun r => r.H2_Produced_kg.isSome)

/-- Line 142: "current_data[H2_Produced_kg].mean()".  pandas divides the
skipna sum by the count of present values and yields NaN (here "none")
when that count is zero. -/
def avg_h2 (rows : List DailyRecord) : Option ℚ :=
  if presentH2Count rows = 0 then none
  else some (qDivNat (total_h2 rows) (presentH2Count rows))

/-- Line 143: "(current_data[Final_SOC_pct] <= 20.5).sum()".  A NaN
compares False in pandas, so it is not counted. -/
def days_at_min_soc (rows : List DailyRecord) : ℕ :=
  rows.countP (fun r =>
    match r.Final_SOC_pct with
    | some s => decide (s ≤ mkRat 41 2)
    | none => false)

/-- Line 144: "(current_data[H2_Produced_kg] == 0).sum()".  NaN == 0 is
False in pandas. -/
def zero_h2_days (rows : List DailyRecord) : ℕ :=
  rows.countP (fun r => r.H2_Produced_kg == some 0)

/-- One top-level statement of streamlit_app.py: its source line, the
global names it references, the global names it binds, and whether it
performs CSV discovery or loading. -/
structure Stmt where
  line : ℕ
  uses : List String
  binds : List String
  loadsCsv : Bool := false
  deriving DecidableEq, Repr

/-- Python built-in names available before the first statement runs. -/
def pyBuiltins : List String :=
  ["sorted", "len", "max", "min", "round", "str", "dict"]

/-- Sequential execution of the top-level statements.  Each statement
first evaluates the names it references; referencing a name neither
built-in nor previously bound raises NameError, modelled as an error
carrying the source line and the offending name.  Otherwise the
statement's bindings are added to the environment. -/
def runScript (env : List String) : List Stmt → Except (ℕ × String) (List String)
  | [] => Except.ok env
  | s :: rest =>
    match s.uses.find? (fun n => !(env.contains n)) with
    | some n => Except.error (s.line, n)
    | none => runScript (env ++ s.binds) rest

/-- The top-level statements of streamlit_app.py lines 1-74 in source
order: the imports, page config, constants, header, the month-selector
block of lines 39-61, the CSV discovery of line 66, the initialization
of all_months_data at line 72, and the loading loop of lines 74-115
(which calls pd.read_csv).  Lines 66 and 74 are the CSV-touching
statements. -/
def scriptStmts : List Stmt :=
  [{ line := 1, uses := [], binds := ["st"] },
   { line := 2, uses := [], binds := ["pd"] },
   { line := 3, uses := [], binds := ["go"] },
   { line := 4, uses := [], binds := ["make_subplots"] },
   { line := 5, uses := [], binds := ["os"] },
   { line := 10, uses := ["st"], binds := [] },
   { line := 19, uses := [], binds := ["SYSTEM_INFO"] },
   { line := 26, uses := [], binds := ["MONTHS"] },
   { line := 35, uses := ["st"], binds := [] },
   { line := 36, uses := ["st"], binds := [] },
   { line := 39, uses := ["st"], binds := ["col1", "col2"] },
   { line := 41, uses := ["sorted", "all_months_data", "MONTHS"],
     binds := ["available_months"] },
   { line := 42, uses := ["st", "available_months"], binds := ["selected_month"] },
   { line := 49, uses := ["pd", "all_months_data", "selected_month"],
     binds := ["current_data"] },
   { line := 50, uses := ["st", "selected_month"], binds := [] },
   { line := 52, uses := ["col2", "st", "SYSTEM_INFO"], binds := [] },
   { line := 61, uses := ["st"], binds := [] },
   { line := 66, uses := ["os"], binds := ["csv_files"], loadsCsv := true },
   { line := 68, uses := ["csv_files", "st"], binds := [] },
   { line := 72, uses := [], binds := ["all_months_data"] },
   { line := 74, uses := ["csv_files", "pd", "MONTHS", "st", "all_months_data"],
     binds := ["all_months_data"], loadsCsv := true }]

/-- The loader's result paired with the caller's table after the load;
the code builds fresh DataFrames (lines 101-110 operate on copies made
from the parsed CSV) and never writes back to the input. -/
def loadRun (t : RawTable) : RawTable × Except LoadError (List DailyRecord) :=
  (t, loadTable t)

/-- Spec reading of total hydrogen: the sum of h2_produced_kg over all
rows. -/
def specTotalH2 (rows : List DailyRecord) : ℚ :=
  (rows.filterMap (fun r => r.H2_Produced_kg)).sum

/-- Spec reading of average daily hydrogen: the arithmetic mean of
h2_produced_kg, undefined (none) for an empty dataset. -/
def specMeanH2 (rows : List DailyRecord) : Option ℚ :=
  if rows = [] then none else some (specTotalH2 rows / rows.length)

/-- Spec reading of days at low SOC: the number of rows whose
final_soc_pct is at most 20.5. -/
def specLowSocDays (rows : List DailyRecord) : ℕ :=
  (rows.filter (fun r =>
    match r.Final_SOC_pct with
    | some s => decide (s ≤ 41 / 2)
    | none => false)).length

/-- Spec reading of zero-H2 days: the number of rows whose
h2_produced_kg equals 0. -/
def specZeroH2Days (rows : List DailyRecord) : ℕ :=
  (rows.filter (fun r => r.H2_Produced_kg == some 0)).length

/-- A well-formed one-month table: all nine required columns (one header
name padded with whitespace), one row with production, one zero-production
row listed first (out of day order, with a recorded start/stop window that
the loader must erase), one row with Day 0 and one with a non-numeric Day
(both to be dropped). -/
def exGood : RawTable :=
  { header := ["Day", " PV_Total_MWh ", "PV_to_H2_kWh", "Batt_to_H2_kWh",
               "H2_Start_Hour", "H2_Stop_Hour", "H2_Produced_kg",
               "Final_SOC_pct", "Battery_Cycles_Daily"]
    rows :=
      [[.num 2, .num 12, .num 0, .num 0, .num 5, .num 9, .num 0, .num 55, .num 1],
       [.num 1, .num 15, .num 100, .num 20, .num 6, .num 14, .num 50, .num 20, .num 2],
       [.num 0, .num 1, .num 1, .num 1, .num 1, .num 2, .num 3, .num 4, .num 5],
       [.txt "x", .num 1, .num 1, .num 1, .num 1, .num 2, .num 3, .num 4, .num 5]] }

/-- The day-1 output record the loader produces from exGood. -/
def exGoodRec1 : DailyRecord :=
  { Day := 1, PV_Total_MWh := some 15, PV_to_H2_kWh := some 100,
    Batt_to_H2_kWh := some 20, H2_Start_Hour := some 6, H2_Stop_Hour := some 14,
    H2_Produced_kg := some 50, Final_SOC_pct := some 20,
    Battery_Cycles_Daily := some 2, H2_Duration := some 8,
    H2_Energy_Total_kWh := some 120 }

/-- The day-2 (zero-production) output record the loader produces from
exGood. -/
def exGoodRec2 : DailyRecord :=
  { Day := 2, PV_Total_MWh := some 12, PV_to_H2_kWh := some 0,
    Batt_to_H2_kWh := some 0, H2_Start_Hour := some 0, H2_Stop_Hour := some 0,
    H2_Produced_kg := some 0, Final_SOC_pct := some 55,
    Battery_Cycles_Daily := some 1, H2_Duration := some 0,
    H2_Energy_Total_kWh := some 0 }

/-- The records the loader produces from exGood. -/
def exGoodRecs : List DailyRecord :=
  [exGoodRec1, exGoodRec2]

/-- A table whose header lacks Final_SOC_pct (and only that column). -/
def exMissingSoc : RawTable :=
  { header := ["Day", "PV_Total_MWh", "PV_to_H2_kWh", "Batt_to_H2_kWh",
               "H2_Start_Hour", "H2_Stop_Hour", "H2_Produced_kg",
               "Battery_Cycles_Daily"]
    rows := [[.num 1, .num 15, .num 100, .num 20, .num 6, .num 14, .num 50, .num 2]] }

/-- A table with every required column whose Day values are all
non-numeric text. -/
def exAllBadDay : RawTable :=
  { header := ["Day", "PV_Total_MWh", "PV_to_H2_kWh", "Batt_to_H2_kWh",
               "H2_Start_Hour", "H2_Stop_Hour", "H2_Produced_kg",
               "Final_SOC_pct", "Battery_Cycles_Daily"]
    rows :=
      [[.txt "one", .num 15, .num 100, .num 20, .num 6, .num 14, .num 50, .num 20, .num 2],
       [.txt "two", .num 12, .num 0, .num 0, .num 5, .num 9, .num 0, .num 55, .num 1]] }

/-- A table with every required column, two rows sharing Day 3 and one
row with the fractional Day 5/2; all three survive the loader. -/
def exDupDay : RawTable :=
  { header := ["Day", "PV_Total_MWh", "PV_to_H2_kWh", "Batt_to_H2_kWh",
               "H2_Start_Hour", "H2_Stop_Hour", "H2_Produced_kg",
               "Final_SOC_pct", "Battery_Cycles_Daily"]
    rows :=
      [[.num 3, .num 15, .num 100, .num 20, .num 6, .num 14, .num 50, .num 20, .num 2],
       [.num 3, .num 12, .num 90, .num 10, .num 7, .num 13, .num 40, .num 30, .num 1],
       [.num (mkRat 5 2), .num 11, .num 80, .num 5, .num 8, .num 12, .num 30, .num 40, .num 1]] }

theorem qAdd_eq (x y : ℚ) : qAdd x y = x + y := by
  rw [qAdd, Rat.mkRat_eq_divInt, Rat.divInt_eq_div]
  have hx : (x.den : ℚ) ≠ 0 := by exact_mod_cast x.den_ne_zero
  have hy : (y.den : ℚ) ≠ 0 := by exact_mod_cast y.den_ne_zero
  push_cast
  conv_rhs => rw [← Rat.num_div_den x, ← Rat.num_div_den y]
  field_simp

theorem qSub_eq (x y : ℚ) : qSub x y = x - y := by
  rw [qSub, Rat.mkRat_eq_divInt, Rat.divInt_eq_div]
  have hx : (x.den : ℚ) ≠ 0 := by exact_mod_cast x.den_ne_zero
  have hy : (y.den : ℚ) ≠ 0 := by exact_mod_cast y.den_ne_zero
  push_cast
  conv_rhs => rw [← Rat.num_div_den x, ← Rat.num_div_den y]
  field_simp
  ring

theorem qDivNat_eq (x : ℚ) (n : ℕ) : qDivNat x n = x / n := by
  rw [qDivNat, Rat.mkRat_eq_divInt, Rat.divInt_eq_div]
  have hx : (x.den : ℚ) ≠ 0 := by exact_mod_cast x.den_ne_zero
  push_cast
  rw [← div_div]
  rw [Rat.num_div_den x]

theorem loadTable_ok {t : RawTable} {recs : List DailyRecord}
    (h : loadTable t = Except.ok recs) :
    missingOf t = [] ∧ recs = (sortByDay (keptRows t)).map (mkRecord (stripHeader t)) := by
  rw [loadTable] at h
  split at h
  · exact ⟨by assumption, (Except.ok.injEq _ _).mp h |>.symm⟩
  · exact absurd h (fun hh => Except.noConfusion hh)

theorem mem_insertByDay {q p : ℚ × List Cell} {l : List (ℚ × List Cell)}
    (h : q ∈ insertByDay p l) : q = p ∨ q ∈ l := by
  induction l with
  | nil => simpa [insertByDay] using h
  | cons a rest ih =>
    rw [insertByDay] at h
    split at h
    · simpa using h
    · rcases List.mem_cons.mp h with h1 | h2
      · exact Or.inr (List.mem_cons.mpr (Or.inl h1))
      · rcases ih h2 with h3 | h4
        · exact Or.inl h3
        · exact Or.inr (List.mem_cons.mpr (Or.inr h4))

theorem mem_sortByDay {q : ℚ × List Cell} {l : List (ℚ × List Cell)}
    (h : q ∈ sortByDay l) : q ∈ l := by
  induction l with
  | nil => simp [sortByDay] at h
  | cons a rest ih =>
    rw [sortByDay] at h
    rcases mem_insertByDay h with h1 | h2
    · exact h1 ▸ List.mem_cons_self a rest
    · exact List.mem_cons.mpr (Or.inr (ih h2))

theorem clip0_nonneg {a : Option ℚ} {d : ℚ} (h : clip0 a = some d) : 0 ≤ d := by
  cases a with
  | none => simp [clip0] at h
  | some x =>
    simp [clip0] at h
    rcases lt_or_le x 0 with hx | hx
    · rw [if_pos hx] at h
      exact h ▸ le_refl 0
    · rw [if_neg (not_lt.mpr hx)] at h
      exact h ▸ hx


theorem mkRecord_produced (hdr : List String) (p : ℚ × List Cell) :
    (mkRecord hdr p).H2_Produced_kg = Cell.toOpt (getCell hdr p.2 "H2_Produced_kg") := by
  rw [mkRecord]
  split <;> rfl

theorem mkRecord_day (hdr : List String) (p : ℚ × List Cell) :
    (mkRecord hdr p).Day = p.1 := by
  rw [mkRecord]
  split <;> rfl

theorem mkRecord_pv (hdr : List String) (p : ℚ × List Cell) :
    (mkRecord hdr p).PV_to_H2_kWh = Cell.toOpt (getCell hdr p.2 "PV_to_H2_kWh") := by
  rw [mkRecord]
  split <;> rfl

theorem mkRecord_batt (hdr : List String) (p : ℚ × List Cell) :
    (mkRecord hdr p).Batt_to_H2_kWh = Cell.toOpt (getCell hdr p.2 "Batt_to_H2_kWh") := by
  rw [mkRecord]
  split <;> rfl

theorem mkRecord_total (hdr : List String) (p : ℚ × List Cell) :
    (mkRecord hdr p).H2_Energy_Total_kWh
      = optAdd (mkRecord hdr p).PV_to_H2_kWh (mkRecord hdr p).Batt_to_H2_kWh := by
  rw [mkRecord_pv, mkRecord_batt, mkRecord]
  split <;> rfl

theorem mkRecord_zeroMask (hdr : List String) (p : ℚ × List Cell)
    (hz : (mkRecord hdr p).H2_Produced_kg = some 0 ∨ (mkRecord hdr p).H2_Produced_kg = none) :
    (mkRecord hdr p).H2_Duration = some 0 ∧ (mkRecord hdr p).H2_Start_Hour = some 0 ∧
      (mkRecord hdr p).H2_Stop_Hour = some 0 := by
  rw [mkRecord_produced] at hz
  rw [mkRecord]
  split
  · exact ⟨rfl, rfl, rfl⟩
  · exact absurd hz (by assumption)

theorem mkRecord_duration (hdr : List String) (p : ℚ × List Cell) :
    (mkRecord hdr p).H2_Duration
      = clip0 (optSub (mkRecord hdr p).H2_Stop_Hour (mkRecord hdr p).H2_Start_Hour) := by
  rw [mkRecord]
  split
  · show some 0 = clip0 (optSub (some 0) (some 0))
    rw [optSub, clip0]
    norm_num [qSub_eq]
  · rfl


/-- C1: a raw table whose stripped header lacks at least one required
column makes the loader fail with MissingColumnError carrying the list
"missing" of line 95, and that list contains every required column absent
from the stripped header; no dataset is produced. -/
theorem C1_missing_columns (t : RawTable) (h : missingOf t ≠ []) :
    loadTable t = Except.error (LoadError.missingColumns (missingOf t)) ∧
    ∀ c ∈ required_cols, c ∉ stripHeader t → c ∈ missingOf t := by
  constructor
  · rw [loadTable, if_neg h]
  · intro c hc hnc
    rw [missingOf, List.mem_filter]
    exact ⟨hc, decide_eq_true hnc⟩

/-- Witness for C1 at a concrete table lacking exactly Final_SOC_pct:
the hypothesis holds, the loader fails with the missing-column error, and
the reported list contains "Final_SOC_pct". -/
theorem C1_witness :
    missingOf exMissingSoc ≠ [] ∧
    loadTable exMissingSoc = Except.error (LoadError.missingColumns (missingOf exMissingSoc)) ∧
    "Final_SOC_pct" ∈ missingOf exMissingSoc :=
  ⟨by decide,
   (C1_missing_columns exMissingSoc (by decide)).1,
   (C1_missing_columns exMissingSoc (by decide)).2 "Final_SOC_pct" (by decide) (by decide)⟩

/-- Counterexample to C2: on a table with every required column whose Day
values are all non-numeric, the loader does not fail - lines 101-112 of
streamlit_app.py have no empty-result check, so it returns an empty
dataset for the month. -/
theorem C2_counterexample : loadTable exAllBadDay = Except.ok [] := by decide

/-- C2 as amended: on a table with every required column, when zero rows
remain after dropping the non-numeric-Day rows and applying the Day >= 1
filter (keptRows is exactly the post-filter row list of line 103), the
loader returns an empty dataset for the month rather than failing (no
EmptyDatasetError exists in the code). -/
theorem C2_empty_result (t : RawTable) (hm : missingOf t = [])
    (hk : keptRows t = []) :
    loadTable t = Except.ok [] := by
  rw [loadTable, if_pos hm, hk]
  rfl

/-- Witness for the amended C2 at the all-non-numeric-Day table, where
the drop of unparseable Day rows leaves zero rows. -/
theorem C2_witness :
    missingOf exAllBadDay = [] ∧ keptRows exAllBadDay = [] ∧
    loadTable exAllBadDay = Except.ok [] :=
  ⟨by decide, by decide, C2_empty_result exAllBadDay (by decide) (by decide)⟩

/-- C3: executing the top-level statements of streamlit_app.py in order
raises NameError at line 41 on the name all_months_data, which is first
bound only at line 72; both CSV-touching statements (lines 66 and 74) come
after line 41, so no CSV is listed or loaded before the failure. -/
theorem C3_name_error :
    runScript pyBuiltins scriptStmts = Except.error (41, "all_months_data") ∧
    (∀ s ∈ scriptStmts, "all_months_data" ∈ s.binds → 72 ≤ s.line) ∧
    (∀ s ∈ scriptStmts, s.loadsCsv = true → 41 < s.line) := by decide

/-- C4: in every successfully loaded dataset, a row whose H2_Produced_kg
is 0 or missing has H2_Duration = 0 and its start/stop hours forced to 0
(lines 107-108), i.e. no recorded operating window. -/
theorem C4_zero_production (t : RawTable) (recs : List DailyRecord)
    (h : loadTable t = Except.ok recs) (r : DailyRecord) (hr : r ∈ recs)
    (hz : r.H2_Produced_kg = some 0 ∨ r.H2_Produced_kg = none) :
    r.H2_Duration = some 0 ∧ r.H2_Start_Hour = some 0 ∧ r.H2_Stop_Hour = some 0 := by
  obtain ⟨-, hrecs⟩ := loadTable_ok h
  subst hrecs
  obtain ⟨p, hp, rfl⟩ := List.mem_map.mp hr
  exact mkRecord_zeroMask _ p hz

/-- Witness for C4 at the zero-production day-2 record of exGood, whose
raw input carried start 5 / stop 9: the loader erased the window. -/
theorem C4_witness :
    loadTable exGood = Except.ok exGoodRecs ∧ exGoodRec2 ∈ exGoodRecs ∧
    (exGoodRec2.H2_Produced_kg = some 0 ∨ exGoodRec2.H2_Produced_kg = none) ∧
    (exGoodRec2.H2_Duration = some 0 ∧ exGoodRec2.H2_Start_Hour = some 0 ∧
      exGoodRec2.H2_Stop_Hour = some 0) :=
  ⟨by decide, by decide, by decide,
   C4_zero_production exGood exGoodRecs (by decide) exGoodRec2 (by decide) (by decide)⟩

/-- C6: in every successfully loaded dataset, H2_Duration is
(H2_Stop_Hour - H2_Start_Hour) clipped below at 0; whenever both hours
are present the duration is max(0, stop - start), and every present
duration value is nonnegative. -/
theorem C6_duration_clamped (t : RawTable) (recs : List DailyRecord)
    (h : loadTable t = Except.ok recs) (r : DailyRecord) (hr : r ∈ recs) :
    r.H2_Duration = clip0 (optSub r.H2_Stop_Hour r.H2_Start_Hour) ∧
    (∀ x y, r.H2_Stop_Hour = some x → r.H2_Start_Hour = some y →
      r.H2_Duration = some (max 0 (x - y))) ∧
    (∀ d, r.H2_Duration = some d → 0 ≤ d) := by
  obtain ⟨-, hrecs⟩ := loadTable_ok h
  subst hrecs
  obtain ⟨p, hp, rfl⟩ := List.mem_map.mp hr
  refine ⟨mkRecord_duration _ p, ?_, ?_⟩
  · intro x y hx hy
    rw [mkRecord_duration _ p, hx, hy, optSub, clip0]
    simp only [Option.map_some', qSub_eq]
    rcases lt_or_le (x - y) 0 with hlt | hle
    · rw [if_pos hlt, max_eq_left hlt.le]
    · rw [if_neg (not_lt.mpr hle), max_eq_right hle]
  · intro d hd
    rw [mkRecord_duration _ p] at hd
    exact clip0_nonneg hd

/-- Witness for C6 at the day-1 record of exGood (start 6, stop 14,
duration 8). -/
theorem C6_witness :
    loadTable exGood = Except.ok exGoodRecs ∧ exGoodRec1 ∈ exGoodRecs ∧
    (exGoodRec1.H2_Duration = clip0 (optSub exGoodRec1.H2_Stop_Hour exGoodRec1.H2_Start_Hour) ∧
     (∀ x y, exGoodRec1.H2_Stop_Hour = some x → exGoodRec1.H2_Start_Hour = some y →
       exGoodRec1.H2_Duration = some (max 0 (x - y))) ∧
     (∀ d, exGoodRec1.H2_Duration = some d → 0 ≤ d)) :=
  ⟨by decide, by decide,
   C6_duration_clamped exGood exGoodRecs (by decide) exGoodRec1 (by decide)⟩

/-- C7: in every successfully loaded dataset, H2_Energy_Total_kWh is the
NaN-propagating sum of PV_to_H2_kWh and Batt_to_H2_kWh, and equals
pv + batt exactly (rational arithmetic; hence within any tolerance)
whenever both are present. -/
theorem C7_energy_total (t : RawTable) (recs : List DailyRecord)
    (h : loadTable t = Except.ok recs) (r : DailyRecord) (hr : r ∈ recs) :
    r.H2_Energy_Total_kWh = optAdd r.PV_to_H2_kWh r.Batt_to_H2_kWh ∧
    ∀ pv b, r.PV_to_H2_kWh = some pv → r.Batt_to_H2_kWh = some b →
      r.H2_Energy_Total_kWh = some (pv + b) := by
  obtain ⟨-, hrecs⟩ := loadTable_ok h
  subst hrecs
  obtain ⟨p, hp, rfl⟩ := List.mem_map.mp hr
  refine ⟨mkRecord_total _ p, ?_⟩
  intro pv b hpv hb
  rw [mkRecord_total _ p, hpv, hb, optAdd]
  rw [qAdd_eq]

/-- Witness for C7 at the day-1 record of exGood (100 + 20 = 120). -/
theorem C7_witness :
    loadTable exGood = Except.ok exGoodRecs ∧ exGoodRec1 ∈ exGoodRecs ∧
    (exGoodRec1.H2_Energy_Total_kWh
        = optAdd exGoodRec1.PV_to_H2_kWh exGoodRec1.Batt_to_H2_kWh ∧
     ∀ pv b, exGoodRec1.PV_to_H2_kWh = some pv → exGoodRec1.Batt_to_H2_kWh = some b →
       exGoodRec1.H2_Energy_Total_kWh = some (pv + b)) :=
  ⟨by decide, by decide,
   C7_energy_total exGood exGoodRecs (by decide) exGoodRec1 (by decide)⟩

/-- Helper: the skipna fold of line 141 computes the sum of the present
H2_Produced_kg values, for any accumulator. -/
theorem total_h2_acc (rows : List DailyRecord) (acc : ℚ) :
    rows.foldl (fun a r => qAdd a (r.H2_Produced_kg.getD 0)) acc
      = acc + (rows.filterMap (fun r => r.H2_Produced_kg)).sum := by
  induction rows generalizing acc with
  | nil => simp
  | cons r rs ih =>
    rw [List.foldl_cons, ih]
    cases hv : r.H2_Produced_kg with
    | none => simp [hv, qAdd_eq]
    | some v =>
      simp [hv, qAdd_eq, List.filterMap_cons]
      ring

/-- Helper: the SOC threshold 20.5 written through mkRat equals 41/2. -/
theorem mkRat_41_2 : (mkRat 41 2 : ℚ) = 41 / 2 := by
  rw [Rat.mkRat_eq_divInt, Rat.divInt_eq_div]
  norm_num

/-- C8: for a dataset whose H2_Produced_kg values are all present, the
four summary metrics of lines 141-144 equal the spec reductions: the sum
of h2_produced_kg over all rows, the arithmetic mean (none on an empty
dataset), the count of rows with final_soc_pct at most 20.5, and the
count of rows with h2_produced_kg equal to 0.  All are pure functions of
the record list, so computing them cannot change the dataset. -/
theorem C8_summary_metrics (rows : List DailyRecord)
    (hp : ∀ r ∈ rows, r.H2_Produced_kg.isSome) :
    total_h2 rows = specTotalH2 rows ∧
    avg_h2 rows = specMeanH2 rows ∧
    days_at_min_soc rows = specLowSocDays rows ∧
    zero_h2_days rows = specZeroH2Days rows := by
  have htot : total_h2 rows = specTotalH2 rows := by
    rw [total_h2, specTotalH2, total_h2_acc, zero_add]
  have hcount : presentH2Count rows = rows.length := by
    rw [presentH2Count, List.countP_eq_length]
    exact hp
  refine ⟨htot, ?_, ?_, ?_⟩
  · rw [avg_h2, specMeanH2, hcount, htot]
    by_cases hnil : rows = []
    · subst hnil
      simp
    · rw [if_neg (by simpa using fun hh => hnil (List.length_eq_zero.mp hh)), if_neg hnil,
        qDivNat_eq]
  · rw [days_at_min_soc, specLowSocDays, List.countP_eq_length_filter, mkRat_41_2]
  · rw [zero_h2_days, specZeroH2Days, List.countP_eq_length_filter]

/-- Witness for C8 at the exGood output records. -/
theorem C8_witness :
    (∀ r ∈ exGoodRecs, r.H2_Produced_kg.isSome) ∧
    (total_h2 exGoodRecs = specTotalH2 exGoodRecs ∧
     avg_h2 exGoodRecs = specMeanH2 exGoodRecs ∧
     days_at_min_soc exGoodRecs = specLowSocDays exGoodRecs ∧
     zero_h2_days exGoodRecs = specZeroH2Days exGoodRecs) :=
  ⟨by decide, C8_summary_metrics exGoodRecs (by decide)⟩

/-- Counterexample to C9: the loader accepts a table with two rows of Day
3 and one row of Day 5/2, so output days are neither unique nor integers;
lines 101-103 only require Day to be numeric and at least 1. -/
theorem C9_counterexample :
    (loadTable exDupDay).map (fun rs => rs.map (fun r => r.Day))
      = Except.ok [mkRat 5 2, 3, 3] ∧
    ¬ ([mkRat 5 2, 3, 3] : List ℚ).Nodup ∧ (mkRat 5 2 : ℚ).den ≠ 1 := by decide

/-- C9 as amended: in every successfully loaded dataset each row's Day is
a number greater than or equal to 1 (neither integrality nor uniqueness
is enforced). -/
theorem C9_day_lower_bound (t : RawTable) (recs : List DailyRecord)
    (h : loadTable t = Except.ok recs) (r : DailyRecord) (hr : r ∈ recs) :
    1 ≤ r.Day := by
  obtain ⟨-, hrecs⟩ := loadTable_ok h
  subst hrecs
  obtain ⟨p, hp, rfl⟩ := List.mem_map.mp hr
  have hk : p ∈ keptRows t := mem_sortByDay hp
  rw [keptRows, List.mem_filter] at hk
  rw [mkRecord_day]
  exact of_decide_eq_true hk.2

/-- Witness for the amended C9 at the day-1 record of exGood. -/
theorem C9_witness :
    loadTable exGood = Except.ok exGoodRecs ∧ exGoodRec1 ∈ exGoodRecs ∧
    1 ≤ exGoodRec1.Day :=
  ⟨by decide, by decide,
   C9_day_lower_bound exGood exGoodRecs (by decide) exGoodRec1 (by decide)⟩

/-- C10: the loader is a pure function of the parsed table: equal inputs
give equal outputs (running it twice on identical raw input yields
identical datasets), and the caller's table is unchanged after a run.
Lines 74-112 read only the CSV contents and build fresh DataFrames. -/
theorem C10_pure_deterministic (t₁ t₂ : RawTable) (h : t₁ = t₂) :
    loadTable t₁ = loadTable t₂ ∧ (loadRun t₁).1 = t₁ := by
  subst h
  exact ⟨rfl, rfl⟩

/-- Witness for C10: two runs on exGood agree and the input is intact. -/
theorem C10_witness :
    exGood = exGood ∧
    (loadTable exGood = loadTable exGood ∧ (loadRun exGood).1 = exGood) :=
  ⟨rfl, C10_pure_deterministic exGood exGood rfl⟩

end SolarH2
